import Mathlib

/-!
# Shallow embedding of the WhatsApp webhook relay (src/app.py)

The relay is a Flask webhook handler.  The embedding models its pure
decision logic; every external call (OpenAI completion, catalog lookup,
messaging-send API) is represented by an oracle parameter giving that
call's outcome, and the sequence of observable operations a handler
performs is recorded as a trace of `Step`s, in program order.  A
`Step.sleepMs` step would record a call to time.sleep; the source makes
no such call, so no definition below ever emits one.  Python `None` is
modelled as `Option.none`; Python truthiness of a string (`if s:`) is
`s ≠ ""`, of an optional string `some s` with `s ≠ ""`, and of a list
its non-emptiness.  Paths that raise an uncaught exception are marked by
an `ok := false` flag carrying the steps already emitted before the
raise, matching the fact that in the source the sends made before an
exception have already happened.
-/

namespace WhatsappApp

/-- Python `str.lower()`: lowercase every character.  (Defined over the
character list so that it is kernel-executable; `String.toLower` is
definitionally opaque.) -/
def pyLower (s : String) : String :=
  ⟨s.data.map Char.toLower⟩

/-- Python `str.strip()`: drop whitespace from both ends. -/
def pyStrip (s : String) : String :=
  ⟨((s.data.dropWhile Char.isWhitespace).reverse.dropWhile Char.isWhitespace).reverse⟩

/-- Outcome of one `openai.ChatCompletion.create` call: either the content
string of the first choice, or any exception (timeout, non-2xx, malformed
response, missing keys). -/
inductive CompletionResult where
  | ok (content : String)
  | failure
  deriving Repr, DecidableEq

/-- Model of `generate_response` (src/app.py lines 172-199): calls the completion
service; on success returns the content stripped, on any exception logs and
returns the fixed apology string.  The call's outcome for the given
`message_body` is supplied by `result`. -/
def generate_response (message_body : String) (result : CompletionResult) : String :=
  match message_body, result with
  | _, .ok content => pyStrip content
  | _, .failure => "Lo siento, hubo un problema generando la respuesta."

/-- One product record of the catalog-lookup response: the value of its
"retailer_id" key, if the key is present (`none` = key absent). -/
structure ProductRecord where
  retailer_id : Option String
  deriving Repr, DecidableEq

/-- The JSON value found where the product list is expected: either an
actual JSON list of records, or some other JSON value (`nonList`, with its
Python truthiness). -/
inductive CatalogProducts where
  | list (records : List ProductRecord)
  | nonList (truthy : Bool)
  deriving Repr, DecidableEq

/-- Outcome of the catalog-lookup POST in `get_all_retailer_ids`:
`err` is any exception (network failure, non-2xx via raise_for_status, or a
body that fails JSON decoding); `dictData p` is a 200 whose JSON body is a
dict containing a "data" key with value `p`; `bare p` is a 200 whose JSON
body is anything else, used directly as the product list. -/
inductive CatalogLookup where
  | err
  | dictData (products : CatalogProducts)
  | bare (products : CatalogProducts)
  deriving Repr, DecidableEq

/-- Model of `get_all_retailer_ids` (src/app.py lines 26-63): normalizes the
response body (a dict with "data" or a bare list), collects the truthy
"retailer_id" of each record, and returns `[]` on any exception, on a
non-list/empty products value, or when no record carries a truthy
retailer_id. -/
def get_all_retailer_ids (lookup : CatalogLookup) : List String :=
  match lookup with
  | .err => []
  | .dictData products | .bare products =>
    match products with
    | .list records =>
      if records.isEmpty then []
      else records.filterMap fun product =>
        match product.retailer_id with
        | some rid => if rid = "" then none else some rid
        | none => none
    | .nonList _ => []

/-- One section of an interactive product_list payload. -/
structure CatalogSection where
  title : String
  product_items : List String
  deriving Repr, DecidableEq

/-- An outbound message payload, keeping the fields of the JSON bodies the
source builds (messaging_product/recipient_type are the same constants in
every payload and are left implicit in the constructor). -/
inductive Payload where
  | text («to» : String) (body : String) (context_message_id : Option String)
  | image («to» : String) (link : String) (context_message_id : Option String)
  | catalog («to» : String) (header : String) (body : String) (footer : String)
      (catalog_id : Option String) (sections : List CatalogSection)
      (context_message_id : Option String)
  deriving Repr, DecidableEq

/-- The `context.message_id` attached when `if thread_id:` is truthy. -/
def ctxOf (thread_id : Option String) : Option String :=
  match thread_id with
  | some t => if t = "" then none else some t
  | none => none

/-- Model of `get_text_message_input` (src/app.py lines 69-82). -/
def get_text_message_input (recipient : String) (text : String)
    (thread_id : Option String) : Payload :=
  Payload.text recipient text (ctxOf thread_id)

/-- Model of `get_catalog_message_input` (src/app.py lines 84-123): resolves the
retailer ids, substitutes the fallback snapshot when the list is empty, and
builds a product_list payload with a single section holding one product
item per id. -/
def get_catalog_message_input (recipient : String) (text : String)
    (catalog_id : Option String) (lookup : CatalogLookup)
    (thread_id : Option String) : Payload :=
  let retailer_ids := get_all_retailer_ids lookup
  let retailer_ids := if retailer_ids = [] then ["default_id"] else retailer_ids
  Payload.catalog recipient "Catálogo completo" text
    "Selecciona un producto para más detalles" catalog_id
    [{ title := "Sección 1", product_items := retailer_ids }]
    (ctxOf thread_id)

/-- One observable operation of a handler, in program order: a
`generate_response` invocation (recording its prompt), a `time.sleep`
call (recording the milliseconds; the source never calls time.sleep, so no
definition in this file emits this step), or a `send_message` dispatch of a
payload (synchronous: the call returns before the next step runs). -/
inductive Step where
  | genAI (prompt : String)
  | sleepMs (ms : Nat)
  | send (payload : Payload)
  deriving Repr, DecidableEq

/-- The payloads actually dispatched in a trace, in order. -/
def sendsOf (steps : List Step) : List Payload :=
  steps.filterMap fun s =>
    match s with
    | .send p => some p
    | _ => none

def welcomePrompt : String :=
  "Genera un mensaje de bienvenida para un servicio de WhatsApp."

def catalogPrompt : String :=
  "Genera un mensaje invitando a explorar el catálogo de productos."

def infoPrompt : String :=
  "Genera una descripción de la empresa y sus servicios."

def welcomeImageLink : String :=
  "https://t4.ftcdn.net/jpg/04/46/40/87/360_F_446408796_sO3c3ZIuWMgvXNbfXM4Hyqt7pLtGzKQo.jpg"

/-- Model of `send_welcome_message` (src/app.py lines 147-166): generates the
welcome text, sends it, then builds and sends the greeting image — one
synchronous send after the other, with no sleep between them.  `comp`
gives the completion call's outcome per prompt. -/
def send_welcome_message (comp : String → CompletionResult)
    (recipient : String) (thread_id : Option String) : List Step :=
  let welcome_text := generate_response welcomePrompt (comp welcomePrompt)
  [ Step.genAI welcomePrompt,
    Step.send (get_text_message_input recipient welcome_text thread_id),
    Step.send (Payload.image recipient welcomeImageLink (ctxOf thread_id)) ]

/-- Model of `send_catalog_message` (src/app.py lines 140-145). -/
def send_catalog_message (comp : String → CompletionResult)
    (cat : CatalogLookup) (cfgCatalogId : Option String)
    (recipient : String) (thread_id : Option String) : List Step :=
  let catalog_text := generate_response catalogPrompt (comp catalogPrompt)
  [ Step.genAI catalogPrompt,
    Step.send (get_catalog_message_input recipient catalog_text cfgCatalogId cat thread_id) ]

/-- The fields of `entry[0].changes[0].value.messages[0]` the handler
reads.  Each `Option` field is `none` when the corresponding JSON key is
absent: `msg_id` is the message's "id", `context_id` is "context"."id"
(the id of the message this one replies to), `text_body` is "text"."body",
`interactive_type` is "interactive"."type", and `button_id` is
"interactive"."button_reply"."id". -/
structure RawMessage where
  msg_type : Option String
  msg_id : Option String
  context_id : Option String
  text_body : Option String
  interactive_type : Option String
  button_id : Option String
  deriving Repr, DecidableEq

/-- Model of `entry[0].changes[0].value`: the statuses list (`none` when the
"statuses" key is absent, `some []` when present but empty), the wa_id of
each contact, and the messages list (`none` when the key is absent). -/
structure WebhookValue where
  statuses : Option (List Unit)
  contacts : List String
  messages : Option (List RawMessage)
  deriving Repr, DecidableEq

/-- One element of `entry[0].changes`; its "value" (`none` when absent or
an empty dict, both falsy in Python). -/
structure WebhookChange where
  value : Option WebhookValue
  deriving Repr, DecidableEq

/-- One element of `body.entry`; "changes" absent and present-but-empty
are both the falsy `[]`. -/
structure WebhookEntry where
  changes : List WebhookChange
  deriving Repr, DecidableEq

/-- A parsed webhook POST body: the truthiness of its "object" field, and
its "entry" list (absent = `[]`). -/
structure WebhookBody where
  object : Bool
  entry : List WebhookEntry
  deriving Repr, DecidableEq

/-- The value dict at `body.entry[0].changes[0].value`, when the chain of
indexings the source performs succeeds. -/
def getValue (body : WebhookBody) : Option WebhookValue :=
  match body.entry.head? with
  | none => none
  | some e =>
    match e.changes.head? with
    | none => none
    | some c => c.value

/-- Model of `is_valid_whatsapp_message` (src/app.py lines 249-261): the chain of
truthiness checks on object, entry, entry[0].changes, changes[0].value,
value.messages and messages[0]. -/
def is_valid_whatsapp_message (body : WebhookBody) : Bool :=
  body.object &&
    !body.entry.isEmpty &&
    (match body.entry.head? with
     | none => false
     | some e =>
       !e.changes.isEmpty &&
         (match e.changes.head? with
          | none => false
          | some c =>
            match c.value with
            | none => false
            | some v =>
              match v.messages with
              | none => false
              | some msgs => !msgs.isEmpty))

/-- Model of `message.get("context", \x7b\x7d).get("id") or message["id"]`
(src/app.py line 231): the reply-to id when truthy, else the message's own
id; `none` when that falls to `message["id]"` and the "id" key is absent
(a KeyError in the source). -/
def computeThread (m : RawMessage) : Option String :=
  match m.context_id with
  | some c => if c = "" then m.msg_id else some c
  | none => m.msg_id

/-- The result of running a handler body: the trace of steps it emitted,
the SENT_WELCOME set afterwards, and whether it returned normally
(`ok := false` marks an uncaught exception raised after the steps in
`steps` had already run). -/
structure ProcResult where
  steps : List Step
  sent : List String
  ok : Bool
  deriving Repr, DecidableEq

/-- Model of `process_interactive_response` (src/app.py lines 205-219): on a
button_reply, route by button id ("catalog" → catalog message, "info" →
generated info text, anything else → nothing); other interaction types do
nothing.  A button_reply whose nested id is missing raises (KeyError). -/
def process_interactive_response (comp : String → CompletionResult)
    (cat : CatalogLookup) (cfgCatalogId : Option String)
    (wa_id : String) (m : RawMessage) (thread_id : String) :
    List Step × Bool :=
  if m.interactive_type = some "button_reply" then
    match m.button_id with
    | none => ([], false)
    | some button_id =>
      if button_id = "catalog" then
        (send_catalog_message comp cat cfgCatalogId wa_id (some thread_id), true)
      else if button_id = "info" then
        ([ Step.genAI infoPrompt,
           Step.send (get_text_message_input wa_id
             (generate_response infoPrompt (comp infoPrompt)) (some thread_id)) ], true)
      else ([], true)
  else ([], true)

/-- The type dispatch of `process_whatsapp_message` (src/app.py lines
238-247): interactive messages go to `process_interactive_response`; text
messages are lowercased and stripped, the two catalog command aliases go
to the catalog message, and everything else is answered by
`generate_response`; any other message type does nothing.  A text message
without a "text"."body" raises (KeyError). -/
def routeMessage (comp : String → CompletionResult) (cat : CatalogLookup)
    (cfgCatalogId : Option String) (wa_id : String) (m : RawMessage)
    (thread_id : String) : List Step × Bool :=
  if m.msg_type = some "interactive" then
    process_interactive_response comp cat cfgCatalogId wa_id m thread_id
  else if m.msg_type = some "text" then
    match m.text_body with
    | none => ([], false)
    | some b =>
      let message_body := pyStrip (pyLower b)
      if message_body = "/catalogo" ∨ message_body = "/productos" then
        (send_catalog_message comp cat cfgCatalogId wa_id (some thread_id), true)
      else
        ([ Step.genAI message_body,
           Step.send (get_text_message_input wa_id
             (generate_response message_body (comp message_body)) (some thread_id)) ], true)
  else ([], true)

/-- Model of `process_whatsapp_message` (src/app.py lines 225-247): returns with no
action on an invalid body; otherwise extracts wa_id (contacts[0].wa_id,
KeyError when contacts is empty), messages[0] and the thread id, sends the
welcome pair and adds the user to SENT_WELCOME if this is the user's first
message, then dispatches on the message type. -/
def process_whatsapp_message (comp : String → CompletionResult)
    (cat : CatalogLookup) (cfgCatalogId : Option String)
    (sent : List String) (body : WebhookBody) : ProcResult :=
  if ¬ is_valid_whatsapp_message body then ⟨[], sent, true⟩
  else
    match getValue body with
    | none => ⟨[], sent, false⟩
    | some v =>
      match v.contacts.head? with
      | none => ⟨[], sent, false⟩
      | some wa_id =>
        match v.messages.bind List.head? with
        | none => ⟨[], sent, false⟩
        | some m =>
          match computeThread m with
          | none => ⟨[], sent, false⟩
          | some thread_id =>
            let greeting :=
              if wa_id ∈ sent then ([], sent)
              else (send_welcome_message comp wa_id (some thread_id), wa_id :: sent)
            let routed := routeMessage comp cat cfgCatalogId wa_id m thread_id
            ⟨greeting.1 ++ routed.1, greeting.2, routed.2⟩

/-- The truthiness of
`body.get("entry", [\x7b\x7d])[0].get("changes", [\x7b\x7d])[0].get("value", \x7b\x7d).get("statuses")`
(src/app.py line 374). -/
def statusesTruthy (body : WebhookBody) : Bool :=
  match getValue body with
  | none => false
  | some v =>
    match v.statuses with
    | none => false
    | some l => !l.isEmpty

/-- Model of `handle_message` (src/app.py lines 371-385) on a parsed JSON body: a
truthy statuses field short-circuits to 200 with no processing; otherwise
a valid message body is processed and answered 200, an invalid one 404.
An exception escaping `process_whatsapp_message` is not a JSONDecodeError,
so it propagates to the framework (a 500 response), after the steps the
processing had already emitted. -/
def handle_message (comp : String → CompletionResult) (cat : CatalogLookup)
    (cfgCatalogId : Option String) (sent : List String)
    (body : WebhookBody) : Nat × ProcResult :=
  if statusesTruthy body then (200, ⟨[], sent, true⟩)
  else if is_valid_whatsapp_message body then
    let r := process_whatsapp_message comp cat cfgCatalogId sent body
    (if r.ok then 200 else 500, r)
  else (404, ⟨[], sent, true⟩)

/-- Python truthiness of an optional query-parameter string: absent
(`None`) and the empty string are falsy. -/
def truthyStr (s : Option String) : Bool :=
  match s with
  | none => false
  | some s => s ≠ ""

/-- The body of a verification response: either the raw challenge value
echoed back, or an error JSON with the given message. -/
inductive VerifyResponse where
  | challengeBody (challenge : Option String)
  | errorJson (message : String)
  deriving Repr, DecidableEq

/-- Model of `verify` (src/app.py lines 387-400): `verify_token` is the configured
VERIFY_TOKEN secret (an environment variable, `none` when unset); `mode`,
`token` and `challenge` are the hub.mode, hub.verify_token and
hub.challenge query parameters.  When mode and token are both truthy,
mode "subscribe" with the matching token echoes the challenge with 200 and
anything else is a 403; otherwise a 400. -/
def verify (verify_token : Option String)
    (mode token challenge : Option String) : VerifyResponse × Nat :=
  if truthyStr mode && truthyStr token then
    if mode = some "subscribe" ∧ token = verify_token then
      (VerifyResponse.challengeBody challenge, 200)
    else
      (VerifyResponse.errorJson "Verification failed", 403)
  else
    (VerifyResponse.errorJson "Missing parameters", 400)

/-!
## Interleaving model of the greet check-and-mark

Lines 234-236 of src/app.py are, for one request handling a message from
`u`:

    if wa_id not in SENT_WELCOME:      -- step 1: read membership
        send_welcome_message(...)      -- step 2: send the welcome pair
        SENT_WELCOME.add(wa_id)        -- step 3: mark greeted

`SENT_WELCOME` is the only state shared between concurrently served
requests.  Each of the three lines is one atomic step of a request; a
schedule interleaves the steps of two requests for the same user over the
shared set.
-/

/-- Program counter of one request inside the greet block: before the
membership check, about to send the welcome pair (check saw the user
absent), about to mark the user greeted, or past the block. -/
inductive GreetPC where
  | check
  | toSend
  | toMark
  | done
  deriving Repr, DecidableEq

/-- One request's greet-block state: its program counter and how many
welcome sequences it has sent. -/
structure GreetProc where
  pc : GreetPC
  welcomesSent : Nat
  deriving Repr, DecidableEq

/-- The joint state of two concurrent requests for the same user and the
shared SENT_WELCOME set. -/
structure RaceState where
  sentWelcome : List String
  first : GreetProc
  second : GreetProc
  deriving Repr, DecidableEq

/-- One atomic step of one request's greet block for user `u` against the
shared set, following lines 234-236 of src/app.py. -/
def greetStep (u : String) (p : GreetProc) (sentWelcome : List String) :
    GreetProc × List String :=
  match p.pc with
  | .check =>
    if u ∈ sentWelcome then ({ p with pc := .done }, sentWelcome)
    else ({ p with pc := .toSend }, sentWelcome)
  | .toSend => ({ p with pc := .toMark, welcomesSent := p.welcomesSent + 1 }, sentWelcome)
  | .toMark => ({ p with pc := .done }, u :: sentWelcome)
  | .done => (p, sentWelcome)

/-- Run a schedule: `true` steps the first request, `false` the second. -/
def runGreetRace (u : String) : List Bool → RaceState → RaceState
  | [], s => s
  | pick :: rest, s =>
    if pick then
      runGreetRace u rest
        { s with first := (greetStep u s.first s.sentWelcome).1,
                 sentWelcome := (greetStep u s.first s.sentWelcome).2 }
    else
      runGreetRace u rest
        { s with second := (greetStep u s.second s.sentWelcome).1,
                 sentWelcome := (greetStep u s.second s.sentWelcome).2 }

/-- Both requests at the start of the greet block, over an initial shared
SENT_WELCOME set. -/
def initRace (sentWelcome : List String) : RaceState :=
  ⟨sentWelcome, ⟨.check, 0⟩, ⟨.check, 0⟩⟩

/-- Total number of welcome sequences the two requests sent. -/
def totalWelcomes (s : RaceState) : Nat :=
  s.first.welcomesSent + s.second.welcomesSent

/-!
## Timing of the two parts of the welcome pair
-/

/-- The milliseconds slept before the first send of a trace. -/
def sleepsBeforeSend : List Step → Nat
  | [] => 0
  | Step.sleepMs n :: rest => n + sleepsBeforeSend rest
  | Step.send _ :: _ => 0
  | Step.genAI _ :: rest => sleepsBeforeSend rest

/-- The trace after (and excluding) its first send. -/
def afterFirstSend : List Step → List Step
  | [] => []
  | Step.send _ :: rest => rest
  | Step.genAI _ :: rest => afterFirstSend rest
  | Step.sleepMs _ :: rest => afterFirstSend rest

/-- The milliseconds slept between the first and the second send of a
trace (0 when no sleep step separates them). -/
def delayBetweenParts (steps : List Step) : Nat :=
  sleepsBeforeSend (afterFirstSend steps)

/-- The `context.message_id` a payload carries, if any. -/
def payloadContext : Payload → Option String
  | .text _ _ c => c
  | .image _ _ c => c
  | .catalog _ _ _ _ _ _ c => c

/-- A payload's correlation id, when present, is `t`. -/
def ctxMatches (t : String) (p : Payload) : Bool :=
  match payloadContext p with
  | some c => c == t
  | none => true

/-!
## Concrete fixtures used by witnesses and counterexamples
-/

/-- A completion oracle on which every completion call fails. -/
def compFail : String → CompletionResult := fun _ => CompletionResult.failure

/-- A text message with the given body. -/
def demoTextMessage (body : String) : RawMessage :=
  ⟨some "text", some "wamid.A1", none, some body, none, none⟩

/-- An image message (a type the router does not handle). -/
def demoImageMessage : RawMessage :=
  ⟨some "image", some "wamid.A1", none, none, none, none⟩

/-- A webhook body around a single message from a single contact. -/
def mkSimpleBody (statuses : Option (List Unit)) (wa : String)
    (m : RawMessage) : WebhookBody :=
  ⟨true, [⟨[⟨some ⟨statuses, [wa], some [m]⟩⟩]⟩]⟩

/-!
## Claim theorems
-/

/-- Claim C9 (confirmed): `generate_response` never raises to its caller —
it is a total function of the completion call's outcome — and on any
failure of the completion call (timeout, non-2xx, malformed response, or
any other exception, all collapsed into `CompletionResult.failure`) it
returns the fixed apology string, for every input text. -/
theorem generate_response_failure_returns_apology (message_body : String) :
    generate_response message_body CompletionResult.failure =
      "Lo siento, hubo un problema generando la respuesta." := rfl

/-- Claim C3 (confirmed): whenever the external catalog lookup fails
(network error, non-2xx status, malformed body — all `CatalogLookup.err`)
or yields no retailer identifiers (`get_all_retailer_ids lookup = []`),
the catalog envelope is built from the fallback snapshot `["default_id"]`
— no error propagates (the builder is a total function) and the envelope's
single section contains exactly one product item with that identifier. -/
theorem catalog_fallback_single_default_item
    (recipient text : String) (catalog_id : Option String)
    (lookup : CatalogLookup) (thread_id : Option String)
    (h : lookup = CatalogLookup.err ∨ get_all_retailer_ids lookup = []) :
    get_catalog_message_input recipient text catalog_id lookup thread_id =
      Payload.catalog recipient "Catálogo completo" text
        "Selecciona un producto para más detalles" catalog_id
        [⟨"Sección 1", ["default_id"]⟩] (ctxOf thread_id) := by
  have hid : get_all_retailer_ids lookup = [] := by
    rcases h with h | h
    · rw [h]; rfl
    · exact h
  simp [get_catalog_message_input, hid]

/-- Witness for `catalog_fallback_single_default_item` at a failed
lookup. -/
theorem catalog_fallback_single_default_item_witness :
    get_catalog_message_input "5215512345678" "Explora el catálogo" none
        CatalogLookup.err (some "wamid.A1") =
      Payload.catalog "5215512345678" "Catálogo completo" "Explora el catálogo"
        "Selecciona un producto para más detalles" none
        [⟨"Sección 1", ["default_id"]⟩] (ctxOf (some "wamid.A1")) :=
  catalog_fallback_single_default_item "5215512345678" "Explora el catálogo"
    none CatalogLookup.err (some "wamid.A1") (Or.inl rfl)

/-- Claim C2 as stated is false: dispatching the Welcome Text+Image pair
inserts no delay at all between the two sends — src/app.py contains no
time.sleep call — so the sends are not separated by a minimum delay of
500 ms.  At a concrete input the delay between the two parts is 0 ms. -/
theorem welcome_pair_no_delay_counterexample :
    delayBetweenParts (send_welcome_message compFail "5215512345678" (some "wamid.A1")) = 0 ∧
      ¬ 500 ≤ delayBetweenParts (send_welcome_message compFail "5215512345678" (some "wamid.A1")) := by
  decide

/-- Claim C2 (corrected): when the Welcome Text+Image pair is dispatched,
the first part's synchronous send call is initiated and returns before the
second part is sent (the trace is exactly text-send followed by
image-send), but the two sends are separated by no enforced delay: no
sleep step lies between them, so the inter-part delay is 0 ms, not a
minimum of 500 ms. -/
theorem welcome_pair_sequential_without_delay
    (comp : String → CompletionResult) (recipient : String)
    (thread_id : Option String) :
    send_welcome_message comp recipient thread_id =
      [ Step.genAI welcomePrompt,
        Step.send (get_text_message_input recipient
          (generate_response welcomePrompt (comp welcomePrompt)) thread_id),
        Step.send (Payload.image recipient welcomeImageLink (ctxOf thread_id)) ] ∧
    delayBetweenParts (send_welcome_message comp recipient thread_id) = 0 :=
  ⟨rfl, rfl⟩

/-- Claim C5 as stated is false: the greet check-and-mark of src/app.py
lines 234-236 is not atomic — the membership check and the mark are
separate steps with the welcome send between them — so two concurrent
inbound events for the same new user can interleave check-check-send-send
and both trigger a Welcome sequence: under the explicit schedule below the
two requests send 2 Welcome sequences, not exactly one. -/
theorem greet_race_double_welcome_counterexample :
    totalWelcomes (runGreetRace "5215512345678"
      [true, false, true, true, false, false] (initRace [])) = 2 ∧ (2 : Nat) ≠ 1 := by
  decide

/-- A request that has not sent a welcome and is either before the
membership check or past the greet block. -/
def quietProc (p : GreetProc) : Prop :=
  (p.pc = GreetPC.check ∨ p.pc = GreetPC.done) ∧ p.welcomesSent = 0

theorem greetStep_quiet {u : String} {p : GreetProc} {w : List String}
    (hu : u ∈ w) (hp : quietProc p) :
    quietProc (greetStep u p w).1 ∧ u ∈ (greetStep u p w).2 := by
  obtain ⟨hpc, hws⟩ := hp
  rcases hpc with hpc | hpc <;>
    simp [greetStep, hpc, hu, quietProc, hws]

theorem runGreetRace_quiet (u : String) (sched : List Bool) (s : RaceState)
    (hu : u ∈ s.sentWelcome) (h1 : quietProc s.first) (h2 : quietProc s.second) :
    totalWelcomes (runGreetRace u sched s) = 0 := by
  induction sched generalizing s with
  | nil =>
    simp [runGreetRace, totalWelcomes, h1.2, h2.2]
  | cons pick rest ih =>
    cases pick with
    | true =>
      have h := greetStep_quiet hu h1
      have hrec := ih { s with first := (greetStep u s.first s.sentWelcome).1,
                               sentWelcome := (greetStep u s.first s.sentWelcome).2 }
        h.2 h.1 h2
      simpa [runGreetRace] using hrec
    | false =>
      have h := greetStep_quiet hu h2
      have hrec := ih { s with second := (greetStep u s.second s.sentWelcome).1,
                               sentWelcome := (greetStep u s.second s.sentWelcome).2 }
        h.2 h1 h.1
      simpa [runGreetRace] using hrec

/-- Claim C5 (corrected): the check-and-mark is not atomic, and two
concurrent events for the same new user can both send a Welcome sequence
(see the counterexample schedule); what does hold is the sequential half
of the claim: for a user already marked greeted before the two requests
start, no interleaving of the two requests produces any Welcome
sequence. -/
theorem greeted_user_no_welcome_any_schedule (u : String) (s0 : List String)
    (sched : List Bool) (hu : u ∈ s0) :
    totalWelcomes (runGreetRace u sched (initRace s0)) = 0 :=
  runGreetRace_quiet u sched (initRace s0) hu ⟨Or.inl rfl, rfl⟩ ⟨Or.inl rfl, rfl⟩

/-- Witness for `greeted_user_no_welcome_any_schedule` at a concrete
greeted user and schedule. -/
theorem greeted_user_no_welcome_any_schedule_witness :
    totalWelcomes (runGreetRace "5215512345678" [true, false, true, true]
      (initRace ["5215512345678"])) = 0 :=
  greeted_user_no_welcome_any_schedule "5215512345678" ["5215512345678"]
    [true, false, true, true] (by decide)

/-- Claim C7 (confirmed): for a configured non-empty verify token, a GET
verification request with mode "subscribe" and the matching token is
answered with the literal challenge value and status 200; with both
parameters present (non-empty — the code treats an empty parameter like an
absent one) but the token wrong, status 403; with mode or token absent,
status 400. -/
theorem verify_endpoint_status_cases (s : String)
    (mode token challenge : Option String) (hs : s ≠ "") :
    (mode = some "subscribe" → token = some s →
      verify (some s) mode token challenge =
        (VerifyResponse.challengeBody challenge, 200)) ∧
    (truthyStr mode = true → truthyStr token = true → token ≠ some s →
      (verify (some s) mode token challenge).2 = 403) ∧
    ((mode = none ∨ token = none) →
      (verify (some s) mode token challenge).2 = 400) := by
  refine ⟨?_, ?_, ?_⟩
  · intro hm ht
    subst hm; subst ht
    simp [verify, truthyStr, hs]
  · intro hm ht hne
    simp [verify, hm, ht, hne]
  · intro h
    rcases h with h | h <;> subst h <;> simp [verify, truthyStr]

/-- Witness for `verify_endpoint_status_cases`: the successful handshake
at a concrete secret and challenge. -/
theorem verify_endpoint_status_cases_witness :
    verify (some "secreto") (some "subscribe") (some "secreto") (some "12345") =
      (VerifyResponse.challengeBody (some "12345"), 200) :=
  (verify_endpoint_status_cases "secreto" (some "subscribe") (some "secreto")
    (some "12345") (by decide)).1 rfl rfl

/-- Claim C1 as stated is false: at a concrete inbound text message whose
body is whitespace-only (already-greeted sender, so only the routed steps
appear), the router invokes `generate_response` on the empty trimmed body
— the trace contains a `genAI ""` step — and the only Text action it
enqueues carries the AI result (an apology under a failing completion
oracle), not a fixed no-message notice. -/
theorem whitespace_text_invokes_ai_counterexample :
    (process_whatsapp_message compFail CatalogLookup.err none ["5215512345678"]
        (mkSimpleBody none "5215512345678" (demoTextMessage "   "))).steps =
      [ Step.genAI "",
        Step.send (Payload.text "5215512345678"
          "Lo siento, hubo un problema generando la respuesta." (some "wamid.A1")) ] ∧
    Step.genAI "" ∈ (process_whatsapp_message compFail CatalogLookup.err none
        ["5215512345678"]
        (mkSimpleBody none "5215512345678" (demoTextMessage "   "))).steps := by
  decide

/-- Claim C1 (corrected): for every inbound text message whose body is
empty after lowercasing and trimming, the router does invoke AIResponder —
it calls `generate_response` on the empty string and enqueues the
resulting Text action; no fixed no-message notice exists in the code. -/
theorem empty_trimmed_text_routes_to_ai
    (comp : String → CompletionResult) (cat : CatalogLookup)
    (cfgCatalogId : Option String) (sent : List String) (body : WebhookBody)
    (v : WebhookValue) (wa_id : String) (m : RawMessage) (t b : String)
    (hv : is_valid_whatsapp_message body = true)
    (hval : getValue body = some v)
    (hwa : v.contacts.head? = some wa_id)
    (hm : v.messages.bind List.head? = some m)
    (ht : computeThread m = some t)
    (htype : m.msg_type = some "text")
    (hb : m.text_body = some b)
    (hempty : pyStrip (pyLower b) = "") :
    (process_whatsapp_message comp cat cfgCatalogId sent body).steps =
      (if wa_id ∈ sent then [] else send_welcome_message comp wa_id (some t)) ++
        [ Step.genAI "",
          Step.send (get_text_message_input wa_id
            (generate_response "" (comp "")) (some t)) ] := by
  have hroute : routeMessage comp cat cfgCatalogId wa_id m t =
      ([ Step.genAI "",
         Step.send (get_text_message_input wa_id
           (generate_response "" (comp "")) (some t)) ], true) := by
    simp [routeMessage, htype, hb, hempty]
  simp only [process_whatsapp_message, hv, hval, hwa, hm, ht, hroute]
  by_cases hmem : wa_id ∈ sent <;> simp [hmem]

/-- Witness for `empty_trimmed_text_routes_to_ai` at a concrete
tab-and-space body from an already greeted sender. -/
theorem empty_trimmed_text_routes_to_ai_witness :
    (process_whatsapp_message compFail CatalogLookup.err none ["5210000000001"]
        (mkSimpleBody none "5210000000001" (demoTextMessage "  \t "))).steps =
      (if "5210000000001" ∈ ["5210000000001"] then []
       else send_welcome_message compFail "5210000000001" (some "wamid.A1")) ++
        [ Step.genAI "",
          Step.send (get_text_message_input "5210000000001"
            (generate_response "" (compFail "")) (some "wamid.A1")) ] :=
  empty_trimmed_text_routes_to_ai compFail CatalogLookup.err none
    ["5210000000001"]
    (mkSimpleBody none "5210000000001" (demoTextMessage "  \t "))
    ⟨none, ["5210000000001"], some [demoTextMessage "  \t "]⟩
    "5210000000001" (demoTextMessage "  \t ") "wamid.A1" "  \t "
    (by decide) rfl rfl rfl rfl rfl rfl (by decide)

/-- Claim C4 (confirmed): for a sender not yet marked greeted, the
payloads dispatched while handling the inbound message begin with the
welcome Text immediately followed by the welcome Image, before any
intent-specific send (the sends of the routed intent follow them). -/
theorem first_contact_welcome_before_intent
    (comp : String → CompletionResult) (cat : CatalogLookup)
    (cfgCatalogId : Option String) (sent : List String) (body : WebhookBody)
    (v : WebhookValue) (wa_id : String) (m : RawMessage) (t : String)
    (hv : is_valid_whatsapp_message body = true)
    (hval : getValue body = some v)
    (hwa : v.contacts.head? = some wa_id)
    (hm : v.messages.bind List.head? = some m)
    (ht : computeThread m = some t)
    (hnew : wa_id ∉ sent) :
    sendsOf (process_whatsapp_message comp cat cfgCatalogId sent body).steps =
      get_text_message_input wa_id
          (generate_response welcomePrompt (comp welcomePrompt)) (some t)
        :: Payload.image wa_id welcomeImageLink (ctxOf (some t))
        :: sendsOf (routeMessage comp cat cfgCatalogId wa_id m t).1 := by
  simp [process_whatsapp_message, hv, hval, hwa, hm, ht, hnew,
        send_welcome_message, sendsOf, List.filterMap_append]

/-- Witness for `first_contact_welcome_before_intent` at a first-time
sender of a plain text message. -/
theorem first_contact_welcome_before_intent_witness :
    sendsOf (process_whatsapp_message compFail CatalogLookup.err none []
        (mkSimpleBody none "5215512345678" (demoTextMessage "hola"))).steps =
      get_text_message_input "5215512345678"
          (generate_response welcomePrompt (compFail welcomePrompt)) (some "wamid.A1")
        :: Payload.image "5215512345678" welcomeImageLink (ctxOf (some "wamid.A1"))
        :: sendsOf (routeMessage compFail CatalogLookup.err none "5215512345678"
            (demoTextMessage "hola") "wamid.A1").1 :=
  first_contact_welcome_before_intent compFail CatalogLookup.err none []
    (mkSimpleBody none "5215512345678" (demoTextMessage "hola"))
    ⟨none, ["5215512345678"], some [demoTextMessage "hola"]⟩
    "5215512345678" (demoTextMessage "hola") "wamid.A1"
    (by decide) rfl rfl rfl rfl (by decide)

/-- Claim C10 (confirmed): a valid inbound message whose type is neither
"text" nor "interactive", from a sender not yet marked greeted, produces
exactly the Welcome pair (welcome Text then welcome Image) and nothing
else, completes normally, and still marks the sender greeted — the
unsupported-type first contact consumes the one-time welcome. -/
theorem unsupported_type_welcome_only_and_marked
    (comp : String → CompletionResult) (cat : CatalogLookup)
    (cfgCatalogId : Option String) (sent : List String) (body : WebhookBody)
    (v : WebhookValue) (wa_id : String) (m : RawMessage) (t : String)
    (hv : is_valid_whatsapp_message body = true)
    (hval : getValue body = some v)
    (hwa : v.contacts.head? = some wa_id)
    (hm : v.messages.bind List.head? = some m)
    (ht : computeThread m = some t)
    (htype1 : m.msg_type ≠ some "text")
    (htype2 : m.msg_type ≠ some "interactive")
    (hnew : wa_id ∉ sent) :
    process_whatsapp_message comp cat cfgCatalogId sent body =
      ⟨send_welcome_message comp wa_id (some t), wa_id :: sent, true⟩ ∧
    sendsOf (send_welcome_message comp wa_id (some t)) =
      [ get_text_message_input wa_id
          (generate_response welcomePrompt (comp welcomePrompt)) (some t),
        Payload.image wa_id welcomeImageLink (ctxOf (some t)) ] ∧
    wa_id ∈ (process_whatsapp_message comp cat cfgCatalogId sent body).sent := by
  have hroute : routeMessage comp cat cfgCatalogId wa_id m t = ([], true) := by
    simp [routeMessage, htype1, htype2]
  have hmain : process_whatsapp_message comp cat cfgCatalogId sent body =
      ⟨send_welcome_message comp wa_id (some t), wa_id :: sent, true⟩ := by
    simp [process_whatsapp_message, hv, hval, hwa, hm, ht, hnew, hroute]
  refine ⟨hmain, ?_, ?_⟩
  · simp [send_welcome_message, sendsOf]
  · rw [hmain]
    exact List.mem_cons_self wa_id sent

/-- Witness for `unsupported_type_welcome_only_and_marked` at a
first-contact image message. -/
theorem unsupported_type_welcome_only_and_marked_witness :
    process_whatsapp_message compFail CatalogLookup.err none []
        (mkSimpleBody none "5215512345678" demoImageMessage) =
      ⟨send_welcome_message compFail "5215512345678" (some "wamid.A1"),
        "5215512345678" :: [], true⟩ ∧
    sendsOf (send_welcome_message compFail "5215512345678" (some "wamid.A1")) =
      [ get_text_message_input "5215512345678"
          (generate_response welcomePrompt (compFail welcomePrompt)) (some "wamid.A1"),
        Payload.image "5215512345678" welcomeImageLink (ctxOf (some "wamid.A1")) ] ∧
    "5215512345678" ∈ (process_whatsapp_message compFail CatalogLookup.err none []
        (mkSimpleBody none "5215512345678" demoImageMessage)).sent :=
  unsupported_type_welcome_only_and_marked compFail CatalogLookup.err none []
    (mkSimpleBody none "5215512345678" demoImageMessage)
    ⟨none, ["5215512345678"], some [demoImageMessage]⟩
    "5215512345678" demoImageMessage "wamid.A1"
    (by decide) rfl rfl rfl rfl (by decide) (by decide) (by decide)

/-- Every payload the welcome pair dispatches carries, when present, the
thread id as its correlation id. -/
theorem welcome_sends_ctx (comp : String → CompletionResult) (wa t : String) :
    (sendsOf (send_welcome_message comp wa (some t))).all (ctxMatches t) = true := by
  by_cases h0 : t = "" <;>
    simp [send_welcome_message, sendsOf, ctxMatches, payloadContext,
          get_text_message_input, ctxOf, h0]

/-- Every payload the intent-routing dispatches carries, when present, the
thread id as its correlation id. -/
theorem route_sends_ctx (comp : String → CompletionResult) (cat : CatalogLookup)
    (cfgCatalogId : Option String) (wa : String) (m : RawMessage) (t : String) :
    (sendsOf (routeMessage comp cat cfgCatalogId wa m t).1).all (ctxMatches t) = true := by
  unfold routeMessage process_interactive_response send_catalog_message
  by_cases h0 : t = "" <;>
  · repeat' split
    all_goals
      simp [sendsOf, ctxMatches, payloadContext, get_text_message_input,
            get_catalog_message_input, ctxOf, h0]
    all_goals
      repeat' split
    all_goals
      simp [sendsOf, ctxMatches, payloadContext, get_text_message_input,
            get_catalog_message_input, ctxOf, h0]

/-- Claim C6 (confirmed): every outbound payload built while handling an
inbound message carries, when a correlation id (`context.message_id`) is
present on it, the handler's thread id `t`; and that thread id is the
inbound message's reply-to id when the inbound message has a non-empty
one, and otherwise the inbound message's own id (the code treats an empty
reply-to id like an absent one). -/
theorem outbound_context_matches_thread
    (comp : String → CompletionResult) (cat : CatalogLookup)
    (cfgCatalogId : Option String) (sent : List String) (body : WebhookBody)
    (v : WebhookValue) (wa_id : String) (m : RawMessage) (t : String)
    (hv : is_valid_whatsapp_message body = true)
    (hval : getValue body = some v)
    (hwa : v.contacts.head? = some wa_id)
    (hm : v.messages.bind List.head? = some m)
    (ht : computeThread m = some t) :
    ((sendsOf (process_whatsapp_message comp cat cfgCatalogId sent body).steps).all
        (ctxMatches t) = true) ∧
    (match m.context_id with
     | some r => if r = "" then m.msg_id = some t else r = t
     | none => m.msg_id = some t) := by
  constructor
  · by_cases hmem : wa_id ∈ sent
    · have hsteps : (process_whatsapp_message comp cat cfgCatalogId sent body).steps =
          (routeMessage comp cat cfgCatalogId wa_id m t).1 := by
        simp [process_whatsapp_message, hv, hval, hwa, hm, ht, hmem]
      rw [hsteps]
      exact route_sends_ctx comp cat cfgCatalogId wa_id m t
    · have hsteps : (process_whatsapp_message comp cat cfgCatalogId sent body).steps =
          send_welcome_message comp wa_id (some t) ++
            (routeMessage comp cat cfgCatalogId wa_id m t).1 := by
        simp [process_whatsapp_message, hv, hval, hwa, hm, ht, hmem]
      rw [hsteps]
      simp only [sendsOf, List.filterMap_append, List.all_append, Bool.and_eq_true]
      exact ⟨welcome_sends_ctx comp wa_id t, route_sends_ctx comp cat cfgCatalogId wa_id m t⟩
  · cases hc : m.context_id with
    | none =>
      have h := ht
      unfold computeThread at h
      rw [hc] at h
      simpa using h
    | some r =>
      by_cases hr : r = ""
      · have h := ht
        unfold computeThread at h
        rw [hc] at h
        simp [hr] at h
        simpa [hr] using h
      · have h := ht
        unfold computeThread at h
        rw [hc] at h
        simp [hr] at h
        simpa [hr] using h

/-- A text message that replies to an earlier message
(`context.id = "wamid.orig"`). -/
def demoReplyMessage : RawMessage :=
  ⟨some "text", some "wamid.A1", some "wamid.orig", some "hola", none, none⟩

/-- Witness for `outbound_context_matches_thread` at a reply message whose
thread id is its non-empty reply-to id. -/
theorem outbound_context_matches_thread_witness :
    ((sendsOf (process_whatsapp_message compFail CatalogLookup.err none []
        (mkSimpleBody none "5215512345678" demoReplyMessage)).steps).all
        (ctxMatches "wamid.orig") = true) ∧
    (match demoReplyMessage.context_id with
     | some r => if r = "" then demoReplyMessage.msg_id = some "wamid.orig"
                 else r = "wamid.orig"
     | none => demoReplyMessage.msg_id = some "wamid.orig") :=
  outbound_context_matches_thread compFail CatalogLookup.err none []
    (mkSimpleBody none "5215512345678" demoReplyMessage)
    ⟨none, ["5215512345678"], some [demoReplyMessage]⟩
    "5215512345678" demoReplyMessage "wamid.orig"
    (by decide) rfl rfl rfl (by decide)

/-- Claim C8 as stated is false: a POST body that carries the statuses
field with an empty list — the field is present, yet Python-falsy — is not
short-circuited by the status-update guard; when the rest of the body is a
valid text message the handler processes it and dispatches an outbound
payload (while still responding 200). -/
theorem empty_statuses_still_processed_counterexample :
    ((getValue (mkSimpleBody (some []) "5215512345678" (demoTextMessage "hola"))).bind
        WebhookValue.statuses = some []) ∧
    (handle_message compFail CatalogLookup.err none ["5215512345678"]
        (mkSimpleBody (some []) "5215512345678" (demoTextMessage "hola"))).1 = 200 ∧
    sendsOf (handle_message compFail CatalogLookup.err none ["5215512345678"]
        (mkSimpleBody (some []) "5215512345678" (demoTextMessage "hola"))).2.steps ≠ [] := by
  decide

/-- Claim C8 (corrected): for every POST webhook body whose statuses field
under `entry[0].changes[0].value` is present with a non-empty (truthy)
value, the handler responds 200, emits no step at all (in particular no
outbound message), and leaves the greeted-set unchanged, regardless of the
rest of the body; presence of the field alone does not suffice (see the
counterexample with an empty statuses list). -/
theorem truthy_statuses_no_outbound
    (comp : String → CompletionResult) (cat : CatalogLookup)
    (cfgCatalogId : Option String) (sent : List String) (body : WebhookBody)
    (l : List Unit)
    (h : (getValue body).bind WebhookValue.statuses = some l) (hl : l ≠ []) :
    handle_message comp cat cfgCatalogId sent body = (200, ⟨[], sent, true⟩) := by
  have hst : statusesTruthy body = true := by
    unfold statusesTruthy
    cases hgv : getValue body with
    | none => rw [hgv] at h; simp at h
    | some v =>
      rw [hgv] at h
      simp only [Option.some_bind] at h
      simp only [hgv, h]
      cases l with
      | nil => exact absurd rfl hl
      | cons a as => simp
  simp [handle_message, hst]

/-- Witness for `truthy_statuses_no_outbound` at a body with a one-element
statuses list. -/
theorem truthy_statuses_no_outbound_witness :
    handle_message compFail CatalogLookup.err none []
        (mkSimpleBody (some [()]) "5215512345678" (demoTextMessage "hola")) =
      (200, ⟨[], [], true⟩) :=
  truthy_statuses_no_outbound compFail CatalogLookup.err none []
    (mkSimpleBody (some [()]) "5215512345678" (demoTextMessage "hola"))
    [()] rfl (by decide)

end WhatsappApp
